import Mathlib

/-!
Verification of the vitals-generation core of `src/app.py` (patient_health
dashboard).

Shallow embedding conventions:
  * `datetime` instants are integers counting seconds since the Unix epoch;
    `timedelta(hours = i)` is `3600 * i` seconds.
  * The numpy random source is modelled by `Draws`: five streams of raw
    standard-normal draws, one stream per vital sign.
    `np.random.normal(loc, scale, size = 24)` consumes the first 24 values
    `z 0 .. z 23` of its stream and yields `loc + scale * z i`.
  * Floating-point values are rationals. `ndarray.round(1)` is numpy's
    round-half-to-even applied at one decimal: `roundHalfEven (10 * q) / 10`.
  * A pandas `DataFrame` built from the column dictionary of
    `generate_sample_vitals` is `VitalsFrame`: the ordered list of column
    names plus one list per column.
  * `DataFrame.iloc[-1]` is `ilocLast`; on a frame with zero rows pandas
    raises `IndexError` (modelled `AppError.indexOutOfBounds`); the
    `AssertionError`s of the integrity block (lines 124-128) carry their
    message (modelled `AppError.dataIntegrity`).
  * The module-level statement order of the script (lines 55-132) is the
    list `appScript`.
-/

/-- Column name literal used at line 18 of `src/app.py`. -/
def tsCol : String := "Timestamp"

/-- Column name literal used at line 19 of `src/app.py`. -/
def hrCol : String := "Heart Rate (BPM)"

/-- Column name literal used at line 20 of `src/app.py`. -/
def sysCol : String := "Systolic BP (mmHg)"

/-- Column name literal used at line 21 of `src/app.py`. -/
def diaCol : String := "Diastolic BP (mmHg)"

/-- Column name literal used at line 22 of `src/app.py`. -/
def spo2Col : String := "SpO2 (%)"

/-- Column name literal used at line 23 of `src/app.py`. -/
def tempCol : String := "Temperature (F)"

/-- The five vital-sign columns of the data model (spec section 3). -/
def vitalColumns : List String := [hrCol, sysCol, diaCol, spo2Col, tempCol]

/-- The raw standard-normal streams consumed by the five
`np.random.normal` calls (lines 11-15), one stream per vital sign. -/
structure Draws where
  hr : ℕ → ℚ
  sys : ℕ → ℚ
  dia : ℕ → ℚ
  spo2 : ℕ → ℚ
  temp : ℕ → ℚ

/-- Round to the nearest integer, ties to even (numpy rounding mode). -/
def roundHalfEven (q : ℚ) : ℤ :=
  if q - (Int.floor q : ℚ) < 1 / 2 then Int.floor q
  else if (1 : ℚ) / 2 < q - (Int.floor q : ℚ) then Int.floor q + 1
  else if Int.floor q % 2 = 0 then Int.floor q else Int.floor q + 1

/-- Numpy `ndarray.round(1)`: round to one decimal place, ties to even. -/
def npRound1 (q : ℚ) : ℚ := (roundHalfEven (10 * q) : ℚ) / 10

/-- Model of `np.random.normal(loc, scale, size = 24).round(1)`
(lines 11-15): 24 affine images of raw standard-normal draws, each
rounded to one decimal. -/
def normalDraws (loc scale : ℚ) (z : ℕ → ℚ) : List ℚ :=
  (List.range 24).map fun i => npRound1 (loc + scale * z i)

/-- Embedding of `[now - timedelta(hours=i) for i in range(23, -1, -1)]`
(line 10): timestamps `now - 23h, now - 22h, ..., now`. -/
def timeRange (now : ℤ) : List ℤ :=
  (((List.range 24).map fun j => 23 - j) : List ℕ).map fun i => now - 3600 * (i : ℤ)

/-- Embedding of the `pd.DataFrame` produced at lines 17-24: ordered
column names and one value list per column. -/
structure VitalsFrame where
  columns : List String
  timestamp : List ℤ
  heartRate : List ℚ
  systolic : List ℚ
  diastolic : List ℚ
  spo2 : List ℚ
  temperatureF : List ℚ
deriving DecidableEq

/-- Embedding of `generate_sample_vitals` (lines 8-24). The call `datetime.now()` at
line 9 is the external instant `now`; the numpy global generator is the
explicit draw streams `d`. -/
def generate_sample_vitals (now : ℤ) (d : Draws) : VitalsFrame where
  columns := [tsCol, hrCol, sysCol, diaCol, spo2Col, tempCol]
  timestamp := timeRange now
  heartRate := normalDraws 75 5 d.hr
  systolic := normalDraws 120 10 d.sys
  diastolic := normalDraws 80 5 d.dia
  spo2 := normalDraws 98 1 d.spo2
  temperatureF := normalDraws (986 / 10) (1 / 2) d.temp

/-- Errors the script can raise: the pandas `IndexError` from positional
indexing past the end (line 59 on an empty frame), and the
`AssertionError` messages of the integrity block (lines 125-126). -/
inductive AppError where
  | indexOutOfBounds : AppError
  | dataIntegrity : String → AppError
deriving DecidableEq

/-- One row of the frame, as returned by `DataFrame.iloc[-1]`. -/
structure VitalsRow where
  timestamp : ℤ
  heartRate : ℚ
  systolic : ℚ
  diastolic : ℚ
  spo2 : ℚ
  temperatureF : ℚ
deriving DecidableEq

/-- Embedding of `vitals_df.iloc[-1]` (line 59): the last row of the
frame; pandas raises `IndexError` when there is no last row. -/
def ilocLast (df : VitalsFrame) : Except AppError VitalsRow :=
  match df.timestamp.getLast?, df.heartRate.getLast?, df.systolic.getLast?,
      df.diastolic.getLast?, df.spo2.getLast?, df.temperatureF.getLast? with
  | some t, some h, some s, some di, some sp, some te =>
      Except.ok ⟨t, h, s, di, sp, te⟩
  | _, _, _, _, _, _ => Except.error AppError.indexOutOfBounds

/-- The column list checked by the second assertion (line 126). Note it
has four entries: `tempCol` is absent. -/
def requiredCheckCols : List String := [hrCol, sysCol, diaCol, spo2Col]

/-- The integrity block (lines 124-128): the first failing assertion's
message, or `none` when both assertions pass. `df.empty` is "zero rows". -/
def integrityCheck (df : VitalsFrame) : Option String :=
  if df.timestamp = [] then some "Vitals data is missing."
  else if requiredCheckCols.all fun c => df.columns.contains c then none
  else some "Missing vital sign columns."

/-- The top-level statements of the script (lines 55-132), in program
order. Chart construction is lines 89-101, chart rendering lines 103-121,
the integrity block lines 124-128. -/
inductive Step where
  | setPageConfig : Step
  | setTitle : Step
  | generateVitals : Step
  | accessLatest : Step
  | renderProfile : Step
  | renderMetrics : Step
  | renderHistoryPie : Step
  | renderMedTable : Step
  | buildCharts : Step
  | renderCharts : Step
  | runIntegrityCheck : Step
  | renderFooter : Step
deriving DecidableEq

/-- The script's statement order (lines 55-132). Every step is
unconditional: the source has no branching at module level. -/
def appScript : List Step :=
  [Step.setPageConfig, Step.setTitle, Step.generateVitals, Step.accessLatest,
   Step.renderProfile, Step.renderMetrics, Step.renderHistoryPie,
   Step.renderMedTable, Step.buildCharts, Step.renderCharts,
   Step.runIntegrityCheck, Step.renderFooter]

/-- Look up a vital-sign column of the frame by name. -/
def colValues (df : VitalsFrame) (c : String) : Option (List ℚ) :=
  if c = hrCol then some df.heartRate
  else if c = sysCol then some df.systolic
  else if c = diaCol then some df.diastolic
  else if c = spo2Col then some df.spo2
  else if c = tempCol then some df.temperatureF
  else none

/-- The cell of column `c` at row `i`, when both exist. -/
def getCell (df : VitalsFrame) (c : String) (i : ℕ) : Option ℚ :=
  (colValues df c).bind fun l => l[i]?

/-- All-zero draw streams, used to instantiate universally quantified
statements at a concrete input. -/
def zeroDraws : Draws := ⟨fun _ => 0, fun _ => 0, fun _ => 0, fun _ => 0, fun _ => 0⟩

/-- Draw streams that are constantly one. -/
def oneDraws : Draws := ⟨fun _ => 1, fun _ => 1, fun _ => 1, fun _ => 1, fun _ => 1⟩

/-- Draw streams that agree with `zeroDraws` on the indices `0..23` that
the generator consumes, and differ beyond them. -/
def paddedDraws : Draws :=
  ⟨fun i => if i < 24 then 0 else 1, fun i => if i < 24 then 0 else 1,
   fun i => if i < 24 then 0 else 1, fun i => if i < 24 then 0 else 1,
   fun i => if i < 24 then 0 else 1⟩

/-- A frame with six column names but zero rows: what
`pd.DataFrame` would hold if the generator produced no samples. -/
def emptyFrame : VitalsFrame :=
  ⟨[tsCol, hrCol, sysCol, diaCol, spo2Col, tempCol], [], [], [], [], [], []⟩

/-- A one-row frame carrying every checked column but no temperature
column: it exercises the integrity block's four-entry column list. -/
def noTempFrame : VitalsFrame :=
  ⟨[tsCol, hrCol, sysCol, diaCol, spo2Col], [0], [70], [120], [80], [98], []⟩

/-- The row `ilocLast` extracts from `generate_sample_vitals 0 zeroDraws`. -/
def lastRow0 : VitalsRow :=
  ⟨0, npRound1 (75 + 5 * 0), npRound1 (120 + 10 * 0), npRound1 (80 + 5 * 0),
   npRound1 (98 + 1 * 0), npRound1 (986 / 10 + 1 / 2 * 0)⟩

/-! ## Helper lemmas -/

theorem timeRange_eq (now : ℤ) : timeRange now =
    [now - 82800, now - 79200, now - 75600, now - 72000, now - 68400,
     now - 64800, now - 61200, now - 57600, now - 54000, now - 50400,
     now - 46800, now - 43200, now - 39600, now - 36000, now - 32400,
     now - 28800, now - 25200, now - 21600, now - 18000, now - 14400,
     now - 10800, now - 7200, now - 3600, now - 0] := rfl

theorem normalDraws_length (loc scale : ℚ) (z : ℕ → ℚ) :
    (normalDraws loc scale z).length = 24 := by
  simp [normalDraws]

theorem normalDraws_getElem? (loc scale : ℚ) (z : ℕ → ℚ) (i : ℕ) (h : i < 24) :
    (normalDraws loc scale z)[i]? = some (npRound1 (loc + scale * z i)) := by
  simp [normalDraws, List.getElem?_map, List.getElem?_range, h]

theorem normalDraws_congr (loc scale : ℚ) (z1 z2 : ℕ → ℚ)
    (h : ∀ i < 24, z1 i = z2 i) :
    normalDraws loc scale z1 = normalDraws loc scale z2 := by
  unfold normalDraws
  refine List.map_congr_left fun i hi => ?_
  rw [h i (List.mem_range.mp hi)]

theorem npRound1_ten_mul_int (x : ℚ) : ∃ k : ℤ, npRound1 x * 10 = (k : ℚ) := by
  refine ⟨roundHalfEven (10 * x), ?_⟩
  unfold npRound1
  field_simp

theorem mem_of_getLast?_eq {l : List ℤ} {m : ℤ} (h : l.getLast? = some m) :
    m ∈ l := by
  obtain ⟨hne, rfl⟩ := List.mem_getLast?_eq_getLast (l := l) (x := m) (by simp [h])
  exact List.getLast_mem hne

theorem le_of_pairwise_getLast? {l : List ℤ} {m : ℤ}
    (hp : l.Pairwise (· < ·)) (h : l.getLast? = some m) : ∀ t ∈ l, t ≤ m := by
  induction l with
  | nil => simp at h
  | cons a l ih =>
    intro t ht
    rcases List.mem_cons.mp ht with rfl | htl
    · cases l with
      | nil =>
        simp only [List.getLast?_singleton, Option.some.injEq] at h
        omega
      | cons b l' =>
        have h' : (b :: l').getLast? = some m := by
          rw [← List.getLast?_cons_cons (a := t) (b := b) (l := l')]
          exact h
        have hm : m ∈ b :: l' := mem_of_getLast?_eq h'
        have := (List.pairwise_cons.mp hp).1 m hm
        omega
    · cases l with
      | nil => simp at htl
      | cons b l' =>
        have h' : (b :: l').getLast? = some m := by
          rw [← List.getLast?_cons_cons (a := a) (b := b) (l := l')]
          exact h
        exact ih (List.pairwise_cons.mp hp).2 h' t htl

/-! ## Claims -/

/-- C2: timestamps of every generated series increase strictly in steps of
exactly one hour (3600 s); the last timestamp is the generation instant
`now` and the first is `now - 23` hours.  Instantiated at
`now = 2024-01-01T12:00:00Z = 1704110400`, the first timestamp is
`2023-12-31T13:00:00Z = 1704027600` and the last is `now` itself. -/
theorem vitals_timestamps_hourly_increasing_end_now (now : ℤ) (d : Draws) :
    List.Chain' (fun a b => a < b ∧ b = a + 3600)
      (generate_sample_vitals now d).timestamp
    ∧ (generate_sample_vitals now d).timestamp.getLast? = some now
    ∧ (generate_sample_vitals now d).timestamp.head? = some (now - 23 * 3600)
    ∧ (generate_sample_vitals 1704110400 d).timestamp.head? = some 1704027600
    ∧ (generate_sample_vitals 1704110400 d).timestamp.getLast? = some 1704110400 := by
  refine ⟨?_, ?_, rfl, rfl, rfl⟩
  · show List.Chain' _ (timeRange now)
    rw [timeRange_eq]
    simp only [List.chain'_cons, List.chain'_singleton, and_true]
    omega
  · show (timeRange now).getLast? = some now
    have h : (timeRange now).getLast? = some (now - 0) := rfl
    rw [h, sub_zero]

/-- C3: the generation instant (the `datetime.now()` reading) and the raw
draw streams are the only sources of variation: two invocations that agree
on both produce the same frame. -/
theorem generator_nondeterminism_only_now_and_draws (now1 now2 : ℤ)
    (d1 d2 : Draws) (hn : now1 = now2) (hd : d1 = d2) :
    generate_sample_vitals now1 d1 = generate_sample_vitals now2 d2 := by
  rw [hn, hd]

/-- Witness for C3 at a concrete instant and concrete draw streams. -/
theorem generator_nondeterminism_only_now_and_draws_witness :
    generate_sample_vitals 0 zeroDraws = generate_sample_vitals 0 zeroDraws :=
  generator_nondeterminism_only_now_and_draws 0 0 zeroDraws zeroDraws rfl rfl

/-- C9: two generator calls at the same instant yield identical timestamp
columns of the same length 24; their numeric columns are not forced to
agree — there are draw outcomes with equal timestamps but different
heart-rate columns. -/
theorem same_now_same_timestamps_values_free (now : ℤ) (d1 d2 : Draws) :
    (generate_sample_vitals now d1).timestamp
        = (generate_sample_vitals now d2).timestamp
    ∧ (generate_sample_vitals now d1).timestamp.length
        = (generate_sample_vitals now d2).timestamp.length
    ∧ (generate_sample_vitals now d1).timestamp.length = 24
    ∧ ∃ e1 e2 : Draws,
        (generate_sample_vitals now e1).timestamp
            = (generate_sample_vitals now e2).timestamp
        ∧ (generate_sample_vitals now e1).heartRate
            ≠ (generate_sample_vitals now e2).heartRate := by
  refine ⟨rfl, rfl, rfl, zeroDraws, oneDraws, rfl, ?_⟩
  intro hEq
  have h0 := congrArg (fun l => l[0]?) hEq
  simp only [show (generate_sample_vitals now zeroDraws).heartRate
      = normalDraws 75 5 zeroDraws.hr from rfl,
    show (generate_sample_vitals now oneDraws).heartRate
      = normalDraws 75 5 oneDraws.hr from rfl,
    normalDraws_getElem? 75 5 zeroDraws.hr 0 (by omega),
    normalDraws_getElem? 75 5 oneDraws.hr 0 (by omega),
    Option.some.injEq] at h0
  norm_num [zeroDraws, oneDraws, npRound1, roundHalfEven] at h0

/-- C10: the generator is a function of the instant and the draws it
consumes: if two runs agree on `now` and on the first 24 values of every
draw stream, the resulting frames are identical — column names,
timestamps and numeric values alike.  A fixed seed therefore reproduces
the output exactly. -/
theorem generator_reproducible_from_seed (now1 now2 : ℤ) (d1 d2 : Draws)
    (hn : now1 = now2)
    (hhr : ∀ i < 24, d1.hr i = d2.hr i)
    (hsys : ∀ i < 24, d1.sys i = d2.sys i)
    (hdia : ∀ i < 24, d1.dia i = d2.dia i)
    (hspo2 : ∀ i < 24, d1.spo2 i = d2.spo2 i)
    (htemp : ∀ i < 24, d1.temp i = d2.temp i) :
    generate_sample_vitals now1 d1 = generate_sample_vitals now2 d2 := by
  subst hn
  unfold generate_sample_vitals
  rw [normalDraws_congr 75 5 d1.hr d2.hr hhr,
    normalDraws_congr 120 10 d1.sys d2.sys hsys,
    normalDraws_congr 80 5 d1.dia d2.dia hdia,
    normalDraws_congr 98 1 d1.spo2 d2.spo2 hspo2,
    normalDraws_congr (986 / 10) (1 / 2) d1.temp d2.temp htemp]

/-- Witness for C10: `paddedDraws` agrees with `zeroDraws` on the consumed
indices only, yet the generated frames coincide. -/
theorem generator_reproducible_from_seed_witness :
    generate_sample_vitals 0 zeroDraws = generate_sample_vitals 0 paddedDraws :=
  generator_reproducible_from_seed 0 0 zeroDraws paddedDraws rfl
    (fun i hi => by simp [zeroDraws, paddedDraws, hi])
    (fun i hi => by simp [zeroDraws, paddedDraws, hi])
    (fun i hi => by simp [zeroDraws, paddedDraws, hi])
    (fun i hi => by simp [zeroDraws, paddedDraws, hi])
    (fun i hi => by simp [zeroDraws, paddedDraws, hi])

theorem isSome_of_lt {l : List ℚ} {i : ℕ} (h : i < l.length) :
    l[i]?.isSome = true := by
  rw [List.getElem?_eq_getElem h]
  rfl

theorem colValues_hr (df : VitalsFrame) : colValues df hrCol = some df.heartRate := by
  unfold colValues
  rw [if_pos rfl]

theorem colValues_sys (df : VitalsFrame) : colValues df sysCol = some df.systolic := by
  unfold colValues
  rw [if_neg (by decide), if_pos rfl]

theorem colValues_dia (df : VitalsFrame) : colValues df diaCol = some df.diastolic := by
  unfold colValues
  rw [if_neg (by decide), if_neg (by decide), if_pos rfl]

theorem colValues_spo2 (df : VitalsFrame) : colValues df spo2Col = some df.spo2 := by
  unfold colValues
  rw [if_neg (by decide), if_neg (by decide), if_neg (by decide), if_pos rfl]

theorem colValues_temp (df : VitalsFrame) :
    colValues df tempCol = some df.temperatureF := by
  unfold colValues
  rw [if_neg (by decide), if_neg (by decide), if_neg (by decide),
    if_neg (by decide), if_pos rfl]

/-- C1: every generated series has exactly 24 samples and each of the five
vital-sign columns holds a value at every row index — no cell is
missing. -/
theorem vitals_series_len24_all_populated (now : ℤ) (d : Draws) :
    (generate_sample_vitals now d).timestamp.length = 24
    ∧ ∀ c ∈ vitalColumns, ∀ i, i < 24 →
        (getCell (generate_sample_vitals now d) c i).isSome = true := by
  refine ⟨rfl, ?_⟩
  intro c hc i hi
  have h24 : ∀ (loc scale : ℚ) (z : ℕ → ℚ), i < (normalDraws loc scale z).length := by
    intro loc scale z
    rw [normalDraws_length]
    exact hi
  fin_cases hc
  · unfold getCell
    rw [colValues_hr, Option.some_bind]
    exact isSome_of_lt (h24 75 5 d.hr)
  · unfold getCell
    rw [colValues_sys, Option.some_bind]
    exact isSome_of_lt (h24 120 10 d.sys)
  · unfold getCell
    rw [colValues_dia, Option.some_bind]
    exact isSome_of_lt (h24 80 5 d.dia)
  · unfold getCell
    rw [colValues_spo2, Option.some_bind]
    exact isSome_of_lt (h24 98 1 d.spo2)
  · unfold getCell
    rw [colValues_temp, Option.some_bind]
    exact isSome_of_lt (h24 (986 / 10) (1 / 2) d.temp)

/-- Witness for C1 at a concrete instant, draw streams, column and row. -/
theorem vitals_series_len24_all_populated_witness :
    hrCol ∈ vitalColumns ∧ (0 : ℕ) < 24 ∧
      (getCell (generate_sample_vitals 0 zeroDraws) hrCol 0).isSome = true :=
  ⟨by decide, by decide,
    (vitals_series_len24_all_populated 0 zeroDraws).2 hrCol (by decide) 0 (by decide)⟩

/-- C4: every cell of the five numeric columns is the corresponding
affine image `loc + scale * z` of a raw draw (means 75, 120, 80, 98, 98.6
and deviations 5, 10, 5, 1, 0.5) rounded to one decimal; ten times any
rounded value is an integer; and SpO2 is not clamped: draw outcomes exist
whose SpO2 value exceeds 100. -/
theorem vitals_fields_affine_rounded_unclamped (now : ℤ) (d : Draws)
    (i : ℕ) (hi : i < 24) :
    (generate_sample_vitals now d).heartRate[i]?
        = some (npRound1 (75 + 5 * d.hr i))
    ∧ (generate_sample_vitals now d).systolic[i]?
        = some (npRound1 (120 + 10 * d.sys i))
    ∧ (generate_sample_vitals now d).diastolic[i]?
        = some (npRound1 (80 + 5 * d.dia i))
    ∧ (generate_sample_vitals now d).spo2[i]?
        = some (npRound1 (98 + 1 * d.spo2 i))
    ∧ (generate_sample_vitals now d).temperatureF[i]?
        = some (npRound1 (986 / 10 + 1 / 2 * d.temp i))
    ∧ (∀ x : ℚ, ∃ k : ℤ, npRound1 x * 10 = (k : ℚ))
    ∧ ∃ e : Draws, ∃ v ∈ (generate_sample_vitals now e).spo2, 100 < v := by
  refine ⟨normalDraws_getElem? _ _ _ i hi, normalDraws_getElem? _ _ _ i hi,
    normalDraws_getElem? _ _ _ i hi, normalDraws_getElem? _ _ _ i hi,
    normalDraws_getElem? _ _ _ i hi, npRound1_ten_mul_int, ?_⟩
  refine ⟨⟨fun _ => 3, fun _ => 3, fun _ => 3, fun _ => 3, fun _ => 3⟩,
    npRound1 (98 + 1 * 3), ?_, ?_⟩
  · show npRound1 (98 + 1 * 3) ∈ normalDraws 98 1 fun _ => 3
    unfold normalDraws
    exact List.mem_map.mpr ⟨0, by simp, rfl⟩
  · norm_num [npRound1, roundHalfEven]

/-- Witness for C4 at a concrete instant, draw streams and row index. -/
theorem vitals_fields_affine_rounded_unclamped_witness :
    (0 : ℕ) < 24 ∧ (generate_sample_vitals 0 zeroDraws).heartRate[0]?
        = some (npRound1 (75 + 5 * zeroDraws.hr 0)) :=
  ⟨by decide, (vitals_fields_affine_rounded_unclamped 0 zeroDraws 0 (by decide)).1⟩

/-- C5: on a non-empty series with strictly increasing timestamps (the
series invariant every generated frame satisfies), the row returned by
`iloc[-1]` carries the maximum timestamp of the series. -/
theorem latest_vital_has_max_timestamp (df : VitalsFrame) (r : VitalsRow)
    (hsorted : List.Chain' (· < ·) df.timestamp)
    (hok : ilocLast df = Except.ok r) :
    r.timestamp ∈ df.timestamp ∧ ∀ t ∈ df.timestamp, t ≤ r.timestamp := by
  have hts : df.timestamp.getLast? = some r.timestamp := by
    unfold ilocLast at hok
    split at hok
    · rename_i t h s di sp te ht hh hs hdi hsp hte
      injection hok with h1
      subst h1
      exact ht
    · exact Except.noConfusion hok
  have hpw : df.timestamp.Pairwise (· < ·) := List.chain'_iff_pairwise.mp hsorted
  exact ⟨mem_of_getLast?_eq hts, le_of_pairwise_getLast? hpw hts⟩

/-- Witness for C5: the series generated at instant 0 from all-zero draws
and its extracted last row. -/
theorem latest_vital_has_max_timestamp_witness :
    lastRow0.timestamp ∈ (generate_sample_vitals 0 zeroDraws).timestamp
    ∧ ∀ t ∈ (generate_sample_vitals 0 zeroDraws).timestamp,
        t ≤ lastRow0.timestamp :=
  latest_vital_has_max_timestamp (generate_sample_vitals 0 zeroDraws) lastRow0
    (by
      show List.Chain' (· < ·) (timeRange 0)
      rw [timeRange_eq]
      simp only [List.chain'_cons, List.chain'_singleton, and_true]
      omega)
    rfl

/-- C6 counterexample: on the empty series, `iloc[-1]` does not signal a
`DataIntegrityError` of any message. -/
theorem latest_vital_empty_no_integrity_error :
    ¬ ∃ m : String, ilocLast emptyFrame = Except.error (AppError.dataIntegrity m) := by
  rintro ⟨m, hm⟩
  have h0 : ilocLast emptyFrame = Except.error AppError.indexOutOfBounds := rfl
  rw [h0] at hm
  injection hm with h1
  exact AppError.noConfusion h1

/-- C6 amended: on the empty series, `iloc[-1]` raises the pandas
out-of-bounds `IndexError` — an uncaught crash, not a
`DataIntegrityError`; it does not return a default row. -/
theorem latest_vital_empty_index_out_of_bounds :
    ilocLast emptyFrame = Except.error AppError.indexOutOfBounds := rfl

/-- C7 counterexample: a non-empty frame that carries every column except
temperature passes the integrity block without error, although one of the
five vital-sign fields is missing — the block checks only four columns. -/
theorem integrity_check_misses_temperature :
    ¬ ((integrityCheck noTempFrame).isSome = true ↔
        (noTempFrame.timestamp = [] ∨
          ∃ c ∈ vitalColumns, noTempFrame.columns.contains c = false)) := by
  decide

/-- C7 amended: the integrity block errors exactly when the frame is empty
or one of the four checked columns (heart rate, systolic, diastolic,
SpO2 — temperature is absent from the checked list) is missing; the error
carries the assertion's message, which line 128 surfaces to the user. -/
theorem integrity_check_exactly_empty_or_missing_checked (df : VitalsFrame) :
    (integrityCheck df).isSome = true ↔
      (df.timestamp = [] ∨
        ∃ c ∈ requiredCheckCols, df.columns.contains c = false) := by
  unfold integrityCheck
  split_ifs with h1 h2
  · simp [h1]
  · rw [List.all_eq_true] at h2
    simp only [Option.isSome_none, Bool.false_eq_true, false_iff]
    rintro (h | ⟨c, hc, hcf⟩)
    · exact h1 h
    · rw [h2 c hc] at hcf
      exact Bool.noConfusion hcf
  · simp only [Option.isSome_some, true_iff]
    rw [List.all_eq_true] at h2
    push_neg at h2
    obtain ⟨c, hc, hcf⟩ := h2
    exact Or.inr ⟨c, hc, by simpa using hcf⟩

/-- C8 counterexample: in the script's statement order, the integrity
block does not precede chart rendering. -/
theorem integrity_check_not_before_charts :
    ¬ (appScript.indexOf Step.runIntegrityCheck
        < appScript.indexOf Step.renderCharts) := by
  decide

/-- C8 amended: the integrity block runs exactly once, after generation
but also after every chart has already been rendered; rendering is
unconditional, so invalid data is detected only after the charts were
drawn against it. -/
theorem integrity_check_once_after_charts :
    appScript.indexOf Step.generateVitals < appScript.indexOf Step.renderCharts
    ∧ appScript.indexOf Step.renderCharts
        < appScript.indexOf Step.runIntegrityCheck
    ∧ appScript.count Step.runIntegrityCheck = 1
    ∧ Step.renderCharts ∈ appScript := by
  decide
